import Mathlib

/-
Verification of the credential-resolution core of the dynamightea repository
(pkg/config/config.go). The Go code is shallowly embedded: the process
environment, the HTTP transport, the JSON decoder for the credential wire
format and the RFC 3339 timestamp parser are abstracted as fields of a
`World`; every function of the source becomes a pure Lean function of the
world that additionally returns the list of HTTP requests it issued, so that
"no network call" and "which endpoints were contacted" are provable facts.
Time is modelled in seconds (an `Int` unix timestamp); the Go expression
`time.Now().Add(1 * time.Hour)` becomes `now + 3600`.
-/

namespace Dyn

/-- Mirror of Go struct `Credentials` (config.go): access key id, secret,
session token and expiration. The Go zero value of `time.Time` is modelled
as `0`. -/
structure Credentials where
  accessKeyID : String
  secretAccessKey : String
  sessionToken : String
  expiration : Int
deriving DecidableEq, Repr

/-- Mirror of the anonymous Go struct `credResponse` decoded from the JSON
body of every metadata source: fields `AccessKeyId`, `SecretAccessKey`,
`Token`, `Expiration` (the latter still a raw string). -/
structure CredResponse where
  accessKeyID : String
  secretAccessKey : String
  token : String
  expiration : String
deriving DecidableEq, Repr

/-- An outbound HTTP request as constructed by the Go code: method, URL,
headers, and the timeout bound (seconds) under which it is issued — either
the `http.Client.Timeout` or the `context.WithTimeout` deadline. -/
structure HttpRequest where
  method : String
  url : String
  headers : List (String × String)
  timeoutSeconds : Nat
deriving DecidableEq, Repr

/-- Outcome of one HTTP round trip: a transport-level error (connection
failure, timeout, or an unreadable body), or a response with its status code
and fully read body. -/
inductive HttpResult where
  | transportError
  | response (status : Nat) (body : String)
deriving DecidableEq, Repr

/-- The ambient effects the Go code reads: `os.Getenv` (returns `""` for an
unset variable, exactly as Go does), the HTTP transport, the Go call
`json.Decoder.Decode` into `credResponse` (`none` = decode error),
`time.Parse(time.RFC3339, ·)` (`none` = parse error), `time.Now()` in
seconds, and `os.UserHomeDir`. -/
structure World where
  env : String → String
  http : HttpRequest → HttpResult
  decodeCredJSON : String → Option CredResponse
  parseRFC3339 : String → Option Int
  now : Int
  homeDir : String

/-- Mirror of Go struct `Config` (config.go). -/
structure Config where
  region : String
  profile : String
  endpoint : String
  configFile : String
  credentialsFile : String
  useIMDS : Bool
  imdsVersion : String
  useECSMetadata : Bool
deriving DecidableEq, Repr

/-- Mirror of Go `LoadConfig` (config.go lines 35-80): region/profile
defaulting, `UseIMDS` true unless `AWS_USE_IMDS` is the literal `"false"`,
`IMDSVersion` defaulting to `"v2"` when `AWS_IMDS_VERSION` is unset/empty,
and `UseECSMetadata` gated on `AWS_ECS_METADATA_ENDPOINT` being non-empty. -/
def LoadConfig (w : World) : Config :=
  let region0 := w.env "AWS_REGION"
  let region1 := if region0 = "" then w.env "AWS_DEFAULT_REGION" else region0
  let region := if region1 = "" then "us-east-1" else region1
  let profile0 := w.env "AWS_PROFILE"
  let profile := if profile0 = "" then "default" else profile0
  let endpoint := w.env "AWS_DYNAMODB_ENDPOINT"
  let awsConfigDir := w.homeDir ++ "/.aws"
  let imdsVersion0 := w.env "AWS_IMDS_VERSION"
  { region := region
    profile := profile
    endpoint := endpoint
    configFile := awsConfigDir ++ "/config"
    credentialsFile := awsConfigDir ++ "/credentials"
    useIMDS := w.env "AWS_USE_IMDS" != "false"
    imdsVersion := if imdsVersion0 = "" then "v2" else imdsVersion0
    useECSMetadata := w.env "AWS_ECS_METADATA_ENDPOINT" != "" }

/-- The IMDS role-listing URL shared by both IMDS flows. -/
def imdsRoleListURL : String :=
  "http://169.254.169.254/latest/meta-data/iam/security-credentials/"

/-- The IMDSv2 token endpoint URL. -/
def imdsTokenURL : String := "http://169.254.169.254/latest/api/token"

/-- First IMDSv1 request: unauthenticated GET of the role listing, issued by
a client with a 5-second timeout. -/
def imdsV1RoleReq : HttpRequest :=
  { method := "GET", url := imdsRoleListURL, headers := [], timeoutSeconds := 5 }

/-- Second IMDSv1 request: unauthenticated GET of the role-specific
credentials (`Sprintf` appends the role name to the listing URL). -/
def imdsV1CredsReq (roleName : String) : HttpRequest :=
  { method := "GET", url := imdsRoleListURL ++ roleName, headers := [], timeoutSeconds := 5 }

/-- IMDSv2 step 1: PUT to the token endpoint with the 6-hour TTL header. -/
def imdsV2TokenReq : HttpRequest :=
  { method := "PUT", url := imdsTokenURL
    headers := [("X-aws-ec2-metadata-token-ttl-seconds", "21600")], timeoutSeconds := 5 }

/-- IMDSv2 step 2: GET of the role listing with the session token header. -/
def imdsV2RoleReq (token : String) : HttpRequest :=
  { method := "GET", url := imdsRoleListURL
    headers := [("X-aws-ec2-metadata-token", token)], timeoutSeconds := 5 }

/-- IMDSv2 step 3: GET of the role-specific credentials with the token header. -/
def imdsV2CredsReq (token roleName : String) : HttpRequest :=
  { method := "GET", url := imdsRoleListURL ++ roleName
    headers := [("X-aws-ec2-metadata-token", token)], timeoutSeconds := 5 }

/-- The single ECS request: GET against the fixed link-local proxy host with
the relative URI appended verbatim, bounded by a 5-second context timeout. -/
def ecsCredsReq (relativeURI : String) : HttpRequest :=
  { method := "GET", url := "http://169.254.170.2" ++ relativeURI
    headers := [], timeoutSeconds := 5 }

/-- Shared tail of all three metadata strategies (config.go lines 174-184,
265-275, 318-328): build a `Credentials` from the decoded JSON, substituting
`now + 1 hour` when the `Expiration` string does not parse as RFC 3339. -/
def credentialsFromResponse (w : World) (cr : CredResponse) : Credentials :=
  let expiration :=
    match w.parseRFC3339 cr.expiration with
    | some t => t
    | none => w.now + 3600
  { accessKeyID := cr.accessKeyID
    secretAccessKey := cr.secretAccessKey
    sessionToken := cr.token
    expiration := expiration }

/-- Mirror of Go `getIMDSv1Credentials` (config.go lines 131-185). Also
returns the list of requests issued. Status acceptance is exactly
`StatusCode != 200`, as in the source. -/
def getIMDSv1Credentials (w : World) : List HttpRequest × Except String Credentials :=
  match w.http imdsV1RoleReq with
  | .transportError => ([imdsV1RoleReq], .error "failed to get IAM role from IMDS")
  | .response st roleName =>
    if st ≠ 200 then
      ([imdsV1RoleReq], .error "failed to get IAM role from IMDS: status")
    else
      match w.http (imdsV1CredsReq roleName) with
      | .transportError =>
        ([imdsV1RoleReq, imdsV1CredsReq roleName], .error "failed to get credentials from IMDS")
      | .response st2 body =>
        if st2 ≠ 200 then
          ([imdsV1RoleReq, imdsV1CredsReq roleName], .error "failed to get credentials from IMDS: status")
        else
          match w.decodeCredJSON body with
          | none =>
            ([imdsV1RoleReq, imdsV1CredsReq roleName], .error "failed to decode credentials from IMDS")
          | some cr =>
            ([imdsV1RoleReq, imdsV1CredsReq roleName], .ok (credentialsFromResponse w cr))

/-- Mirror of Go `getIMDSv2Credentials` (config.go lines 188-276): token PUT,
then role GET, then credentials GET, every step accepted only on status 200. -/
def getIMDSv2Credentials (w : World) : List HttpRequest × Except String Credentials :=
  match w.http imdsV2TokenReq with
  | .transportError => ([imdsV2TokenReq], .error "failed to get token from IMDSv2")
  | .response st token =>
    if st ≠ 200 then
      ([imdsV2TokenReq], .error "failed to get token from IMDSv2: status")
    else
      match w.http (imdsV2RoleReq token) with
      | .transportError =>
        ([imdsV2TokenReq, imdsV2RoleReq token], .error "failed to get IAM role from IMDSv2")
      | .response st2 roleName =>
        if st2 ≠ 200 then
          ([imdsV2TokenReq, imdsV2RoleReq token], .error "failed to get IAM role from IMDSv2: status")
        else
          match w.http (imdsV2CredsReq token roleName) with
          | .transportError =>
            ([imdsV2TokenReq, imdsV2RoleReq token, imdsV2CredsReq token roleName],
             .error "failed to get credentials from IMDSv2")
          | .response st3 body =>
            if st3 ≠ 200 then
              ([imdsV2TokenReq, imdsV2RoleReq token, imdsV2CredsReq token roleName],
               .error "failed to get credentials from IMDSv2: status")
            else
              match w.decodeCredJSON body with
              | none =>
                ([imdsV2TokenReq, imdsV2RoleReq token, imdsV2CredsReq token roleName],
                 .error "failed to decode credentials from IMDSv2")
              | some cr =>
                ([imdsV2TokenReq, imdsV2RoleReq token, imdsV2CredsReq token roleName],
                 .ok (credentialsFromResponse w cr))

/-- Mirror of Go `getECSCredentials` (config.go lines 279-329): reads
`AWS_CONTAINER_CREDENTIALS_RELATIVE_URI` itself (an empty value is an error
from this function), then a single GET against the proxy host. -/
def getECSCredentials (w : World) : List HttpRequest × Except String Credentials :=
  if w.env "AWS_CONTAINER_CREDENTIALS_RELATIVE_URI" = "" then
    ([], .error "AWS_CONTAINER_CREDENTIALS_RELATIVE_URI not set")
  else
    match w.http (ecsCredsReq (w.env "AWS_CONTAINER_CREDENTIALS_RELATIVE_URI")) with
    | .transportError =>
      ([ecsCredsReq (w.env "AWS_CONTAINER_CREDENTIALS_RELATIVE_URI")],
       .error "failed to get credentials from ECS metadata")
    | .response st body =>
      if st ≠ 200 then
        ([ecsCredsReq (w.env "AWS_CONTAINER_CREDENTIALS_RELATIVE_URI")],
         .error "failed to get credentials from ECS metadata: status")
      else
        match w.decodeCredJSON body with
        | none =>
          ([ecsCredsReq (w.env "AWS_CONTAINER_CREDENTIALS_RELATIVE_URI")],
           .error "failed to decode credentials from ECS metadata")
        | some cr =>
          ([ecsCredsReq (w.env "AWS_CONTAINER_CREDENTIALS_RELATIVE_URI")],
           .ok (credentialsFromResponse w cr))

/-- The candidate credentials read from the environment at the top of
`GetCredentials` (config.go lines 85-89). -/
def envCredentials (w : World) : Credentials :=
  { accessKeyID := w.env "AWS_ACCESS_KEY_ID"
    secretAccessKey := w.env "AWS_SECRET_ACCESS_KEY"
    sessionToken := w.env "AWS_SESSION_TOKEN"
    expiration := 0 }

/-- The `switch c.IMDSVersion` of `GetCredentials` (config.go lines 107-118):
`"v1"` runs only the legacy flow, `"v2"` only the secured flow, and any other
value runs the secured flow with a legacy fallback on its failure. -/
def tryIMDS (c : Config) (w : World) : List HttpRequest × Except String Credentials :=
  if c.imdsVersion = "v1" then getIMDSv1Credentials w
  else if c.imdsVersion = "v2" then getIMDSv2Credentials w
  else
    match getIMDSv2Credentials w with
    | (rs, .ok cr) => (rs, .ok cr)
    | (rs, .error _) => (rs ++ (getIMDSv1Credentials w).1, (getIMDSv1Credentials w).2)

/-- The part of `GetCredentials` after the environment check (config.go lines
95-127): an ECS attempt when `UseECSMetadata` (its error swallowed), then the
IMDS attempt when `UseIMDS`, then the terminal exhaustion error. When
`UseECSMetadata` is false no ECS request is issued at all. -/
def resolveAfterEnv (c : Config) (w : World) : List HttpRequest × Except String Credentials :=
  match (if c.useECSMetadata then getECSCredentials w
         else ([], .error "ECS metadata not configured")) with
  | (rs, .ok cr) => (rs, .ok cr)
  | (rs, .error _) =>
    if c.useIMDS then
      match tryIMDS c w with
      | (rs2, .ok cr) => (rs ++ rs2, .ok cr)
      | (rs2, .error _) => (rs ++ rs2, .error "unable to locate AWS credentials")
    else
      (rs, .error "unable to locate AWS credentials")

/-- Mirror of Go `Config.GetCredentials` (config.go lines 83-128):
environment variables first (both key and secret non-empty), then the
metadata strategies via `resolveAfterEnv`. -/
def Config.GetCredentials (c : Config) (w : World) : List HttpRequest × Except String Credentials :=
  if (envCredentials w).accessKeyID ≠ "" ∧ (envCredentials w).secretAccessKey ≠ "" then
    ([], .ok (envCredentials w))
  else resolveAfterEnv c w

/-- Whether a strategy outcome is a success (`err == nil` in the Go). -/
def resultOk (r : Except String Credentials) : Bool :=
  match r with
  | .ok _ => true
  | .error _ => false

/-! Concrete-world builders used by witnesses and counterexamples. -/

/-- A finite environment: unlisted variables are unset (`""`), as with
`os.Getenv`. -/
def envOf (kvs : List (String × String)) : String → String := fun k =>
  match kvs.find? (fun p => p.1 == k) with
  | some p => p.2
  | none => ""

/-- A finite HTTP oracle: unlisted requests fail at the transport level. -/
def httpOf (rules : List (HttpRequest × HttpResult)) : HttpRequest → HttpResult := fun r =>
  match rules.find? (fun p => p.1 == r) with
  | some p => p.2
  | none => .transportError

/-- A finite JSON decoder: unlisted bodies are decode errors. -/
def decodeOf (rules : List (String × CredResponse)) : String → Option CredResponse := fun b =>
  (rules.find? (fun p => p.1 == b)).map (fun p => p.2)

/-- A finite RFC 3339 parser: unlisted strings are parse errors. -/
def parseOf (rules : List (String × Int)) : String → Option Int := fun s =>
  (rules.find? (fun p => p.1 == s)).map (fun p => p.2)

/-- Assemble a `World` from finite tables, with `now = 0`. -/
def mkWorld (env : List (String × String)) (rules : List (HttpRequest × HttpResult))
    (decode : List (String × CredResponse)) (parse : List (String × Int)) : World :=
  { env := envOf env, http := httpOf rules, decodeCredJSON := decodeOf decode
    parseRFC3339 := parseOf parse, now := 0, homeDir := "/home/u" }

/-! Unfolding lemmas for `LoadConfig` and `GetCredentials`. -/

theorem loadConfig_useIMDS (w : World) :
    (LoadConfig w).useIMDS = (w.env "AWS_USE_IMDS" != "false") := rfl

theorem loadConfig_useECSMetadata (w : World) :
    (LoadConfig w).useECSMetadata = (w.env "AWS_ECS_METADATA_ENDPOINT" != "") := rfl

theorem loadConfig_imdsVersion (w : World) :
    (LoadConfig w).imdsVersion =
      if w.env "AWS_IMDS_VERSION" = "" then "v2" else w.env "AWS_IMDS_VERSION" := rfl

theorem getCredentials_of_envOk (c : Config) (w : World)
    (h1 : w.env "AWS_ACCESS_KEY_ID" ≠ "") (h2 : w.env "AWS_SECRET_ACCESS_KEY" ≠ "") :
    c.GetCredentials w = ([], .ok (envCredentials w)) := by
  unfold Config.GetCredentials
  rw [if_pos]
  exact ⟨h1, h2⟩

theorem getCredentials_of_envAbsent (c : Config) (w : World)
    (h : w.env "AWS_ACCESS_KEY_ID" = "" ∨ w.env "AWS_SECRET_ACCESS_KEY" = "") :
    c.GetCredentials w = resolveAfterEnv c w := by
  unfold Config.GetCredentials
  rw [if_neg]
  intro hc
  rcases h with h | h
  · exact hc.1 h
  · exact hc.2 h

theorem resolveAfterEnv_ecs_ok (c : Config) (w : World) (rs : List HttpRequest)
    (cr : Credentials) (hecs : c.useECSMetadata = true)
    (h : getECSCredentials w = (rs, .ok cr)) :
    resolveAfterEnv c w = (rs, .ok cr) := by
  unfold resolveAfterEnv
  rw [if_pos hecs, h]

theorem resolveAfterEnv_ecsFail_imds_ok (c : Config) (w : World) (rs rs2 : List HttpRequest)
    (e : String) (cr : Credentials) (hecs : c.useECSMetadata = true)
    (h : getECSCredentials w = (rs, .error e)) (himds : c.useIMDS = true)
    (h2 : tryIMDS c w = (rs2, .ok cr)) :
    resolveAfterEnv c w = (rs ++ rs2, .ok cr) := by
  unfold resolveAfterEnv
  rw [if_pos hecs, h]
  simp only []
  rw [if_pos himds, h2]

theorem resolveAfterEnv_ecsFail_imds_error (c : Config) (w : World) (rs rs2 : List HttpRequest)
    (e e2 : String) (hecs : c.useECSMetadata = true)
    (h : getECSCredentials w = (rs, .error e)) (himds : c.useIMDS = true)
    (h2 : tryIMDS c w = (rs2, .error e2)) :
    resolveAfterEnv c w = (rs ++ rs2, .error "unable to locate AWS credentials") := by
  unfold resolveAfterEnv
  rw [if_pos hecs, h]
  simp only []
  rw [if_pos himds, h2]

theorem resolveAfterEnv_noEcs_imds_ok (c : Config) (w : World) (rs2 : List HttpRequest)
    (cr : Credentials) (hecs : c.useECSMetadata = false) (himds : c.useIMDS = true)
    (h2 : tryIMDS c w = (rs2, .ok cr)) :
    resolveAfterEnv c w = (rs2, .ok cr) := by
  unfold resolveAfterEnv
  rw [if_neg (by simp [hecs])]
  simp only []
  rw [if_pos himds, h2]
  simp

theorem resolveAfterEnv_noEcs_imds_error (c : Config) (w : World) (rs2 : List HttpRequest)
    (e2 : String) (hecs : c.useECSMetadata = false) (himds : c.useIMDS = true)
    (h2 : tryIMDS c w = (rs2, .error e2)) :
    resolveAfterEnv c w = (rs2, .error "unable to locate AWS credentials") := by
  unfold resolveAfterEnv
  rw [if_neg (by simp [hecs])]
  simp only []
  rw [if_pos himds, h2]
  simp

theorem resolveAfterEnv_noEcs_noImds (c : Config) (w : World)
    (hecs : c.useECSMetadata = false) (himds : c.useIMDS = false) :
    resolveAfterEnv c w = ([], .error "unable to locate AWS credentials") := by
  unfold resolveAfterEnv
  rw [if_neg (by simp [hecs])]
  simp only []
  rw [if_neg (by simp [himds])]

theorem resolveAfterEnv_ecsFail_noImds (c : Config) (w : World) (rs : List HttpRequest)
    (e : String) (hecs : c.useECSMetadata = true)
    (h : getECSCredentials w = (rs, .error e)) (himds : c.useIMDS = false) :
    resolveAfterEnv c w = (rs, .error "unable to locate AWS credentials") := by
  unfold resolveAfterEnv
  rw [if_pos hecs, h]
  simp only []
  rw [if_neg (by simp [himds])]

/-! Shared concrete inputs for witnesses. -/

/-- A configuration with both metadata strategies enabled and the secured
IMDS version selected, as `LoadConfig` produces in a default EC2+ECS setup. -/
def cfgAllOn : Config :=
  { region := "us-east-1", profile := "default", endpoint := ""
    configFile := "/home/u/.aws/config", credentialsFile := "/home/u/.aws/credentials"
    useIMDS := true, imdsVersion := "v2", useECSMetadata := true }

/-- A world whose environment carries a full static credential triple. -/
def wEnvFull : World :=
  mkWorld [("AWS_ACCESS_KEY_ID", "AKENV"), ("AWS_SECRET_ACCESS_KEY", "SKENV"),
           ("AWS_SESSION_TOKEN", "STENV")] [] [] []

/-- A world with no environment credentials where the ECS endpoint answers
500 and the IMDSv2 three-step flow succeeds. -/
def wC1 : World :=
  mkWorld [("AWS_CONTAINER_CREDENTIALS_RELATIVE_URI", "/c1")]
    [(ecsCredsReq "/c1", .response 500 "err"),
     (imdsV2TokenReq, .response 200 "tok"),
     (imdsV2RoleReq "tok", .response 200 "role"),
     (imdsV2CredsReq "tok" "role", .response 200 "credbody")]
    [("credbody", { accessKeyID := "AKI", secretAccessKey := "SKI"
                    token := "TKI", expiration := "texp" })]
    [("texp", 42)]

/-- A world where only the access key is set in the environment, the secret
being absent. -/
def wC2half : World := mkWorld [("AWS_ACCESS_KEY_ID", "AKONLY")] [] [] []

/-- Claim C1: for every environment and configuration, `GetCredentials`
evaluates its strategies in the fixed order environment variables, then
container (ECS) metadata, then instance metadata (IMDS), returns the
credentials of the first strategy to succeed (no later strategy is
attempted — witnessed by the request trace), and treats failure of each
earlier strategy as non-fatal by proceeding to the next applicable
strategy. -/
theorem C1_strategy_order (c : Config) (w : World) :
    (w.env "AWS_ACCESS_KEY_ID" ≠ "" → w.env "AWS_SECRET_ACCESS_KEY" ≠ "" →
      c.GetCredentials w = ([], .ok (envCredentials w))) ∧
    ((w.env "AWS_ACCESS_KEY_ID" = "" ∨ w.env "AWS_SECRET_ACCESS_KEY" = "") →
      c.useECSMetadata = true →
      ∀ rs cr, getECSCredentials w = (rs, .ok cr) → c.GetCredentials w = (rs, .ok cr)) ∧
    ((w.env "AWS_ACCESS_KEY_ID" = "" ∨ w.env "AWS_SECRET_ACCESS_KEY" = "") →
      c.useECSMetadata = true → c.useIMDS = true →
      ∀ rs e rs2 cr, getECSCredentials w = (rs, .error e) → tryIMDS c w = (rs2, .ok cr) →
        c.GetCredentials w = (rs ++ rs2, .ok cr)) ∧
    ((w.env "AWS_ACCESS_KEY_ID" = "" ∨ w.env "AWS_SECRET_ACCESS_KEY" = "") →
      c.useECSMetadata = false → c.useIMDS = true →
      ∀ rs2 cr, tryIMDS c w = (rs2, .ok cr) → c.GetCredentials w = (rs2, .ok cr)) := by
  refine ⟨fun h1 h2 => getCredentials_of_envOk c w h1 h2, ?_, ?_, ?_⟩
  · intro h hecs rs cr hok
    rw [getCredentials_of_envAbsent c w h]
    exact resolveAfterEnv_ecs_ok c w rs cr hecs hok
  · intro h hecs himds rs e rs2 cr herr hok
    rw [getCredentials_of_envAbsent c w h]
    exact resolveAfterEnv_ecsFail_imds_ok c w rs rs2 e cr hecs herr himds hok
  · intro h hecs himds rs2 cr hok
    rw [getCredentials_of_envAbsent c w h]
    exact resolveAfterEnv_noEcs_imds_ok c w rs2 cr hecs himds hok

theorem C1_strategy_order_witness :
    cfgAllOn.GetCredentials wEnvFull = ([], .ok (envCredentials wEnvFull)) ∧
    cfgAllOn.GetCredentials wC1 =
      ([ecsCredsReq "/c1"] ++ [imdsV2TokenReq, imdsV2RoleReq "tok", imdsV2CredsReq "tok" "role"],
       .ok { accessKeyID := "AKI", secretAccessKey := "SKI"
             sessionToken := "TKI", expiration := 42 }) :=
  ⟨(C1_strategy_order cfgAllOn wEnvFull).1 (by decide) (by decide),
   (C1_strategy_order cfgAllOn wC1).2.2.1 (Or.inl (by decide)) rfl rfl
     [ecsCredsReq "/c1"] "failed to get credentials from ECS metadata: status"
     [imdsV2TokenReq, imdsV2RoleReq "tok", imdsV2CredsReq "tok" "role"]
     { accessKeyID := "AKI", secretAccessKey := "SKI", sessionToken := "TKI", expiration := 42 }
     rfl rfl⟩

/-- Claim C2: the environment strategy succeeds exactly when both
`AWS_ACCESS_KEY_ID` and `AWS_SECRET_ACCESS_KEY` are non-empty, in which case
`GetCredentials` returns those exact values (plus `AWS_SESSION_TOKEN` if set)
with an empty request trace (no network call); if either of the two is
empty, the environment strategy is treated as absent and resolution proceeds
to the remaining strategies. -/
theorem C2_environment_strategy (c : Config) (w : World) :
    (w.env "AWS_ACCESS_KEY_ID" ≠ "" → w.env "AWS_SECRET_ACCESS_KEY" ≠ "" →
      c.GetCredentials w =
        ([], .ok { accessKeyID := w.env "AWS_ACCESS_KEY_ID"
                   secretAccessKey := w.env "AWS_SECRET_ACCESS_KEY"
                   sessionToken := w.env "AWS_SESSION_TOKEN", expiration := 0 })) ∧
    ((w.env "AWS_ACCESS_KEY_ID" = "" ∨ w.env "AWS_SECRET_ACCESS_KEY" = "") →
      c.GetCredentials w = resolveAfterEnv c w) :=
  ⟨fun h1 h2 => getCredentials_of_envOk c w h1 h2,
   fun h => getCredentials_of_envAbsent c w h⟩

/-! Trace lemmas: which requests each strategy can issue. -/

theorem getECS_trace_eq (w : World) :
    (getECSCredentials w).1 = [] ∨
    (getECSCredentials w).1 = [ecsCredsReq (w.env "AWS_CONTAINER_CREDENTIALS_RELATIVE_URI")] := by
  unfold getECSCredentials
  repeat' split
  all_goals first | (left; rfl) | (right; rfl)

theorem getIMDSv1_trace_eq (w : World) :
    (getIMDSv1Credentials w).1 = [imdsV1RoleReq] ∨
    ∃ roleName, (getIMDSv1Credentials w).1 = [imdsV1RoleReq, imdsV1CredsReq roleName] := by
  unfold getIMDSv1Credentials
  repeat' split
  all_goals first | (left; rfl) | (right; exact ⟨_, rfl⟩)

theorem getIMDSv2_trace_eq (w : World) :
    (getIMDSv2Credentials w).1 = [imdsV2TokenReq] ∨
    (∃ t, (getIMDSv2Credentials w).1 = [imdsV2TokenReq, imdsV2RoleReq t]) ∨
    (∃ t roleName, (getIMDSv2Credentials w).1 =
      [imdsV2TokenReq, imdsV2RoleReq t, imdsV2CredsReq t roleName]) := by
  unfold getIMDSv2Credentials
  repeat' split
  all_goals first
    | (left; rfl)
    | (right; left; exact ⟨_, rfl⟩)
    | (right; right; exact ⟨_, _, rfl⟩)

theorem mem_getECS_eq (w : World) (r : HttpRequest) (hr : r ∈ (getECSCredentials w).1) :
    r = ecsCredsReq (w.env "AWS_CONTAINER_CREDENTIALS_RELATIVE_URI") := by
  rcases getECS_trace_eq w with h | h <;> rw [h] at hr
  · simp at hr
  · simpa using hr

theorem mem_getIMDSv1_timeout (w : World) (r : HttpRequest)
    (hr : r ∈ (getIMDSv1Credentials w).1) : r.timeoutSeconds = 5 := by
  rcases getIMDSv1_trace_eq w with h | ⟨rn, h⟩ <;> rw [h] at hr <;> simp at hr
  · subst hr; rfl
  · rcases hr with rfl | rfl <;> rfl

theorem mem_getIMDSv2_timeout (w : World) (r : HttpRequest)
    (hr : r ∈ (getIMDSv2Credentials w).1) : r.timeoutSeconds = 5 := by
  rcases getIMDSv2_trace_eq w with h | ⟨t, h⟩ | ⟨t, rn, h⟩ <;> rw [h] at hr <;> simp at hr
  · subst hr; rfl
  · rcases hr with rfl | rfl <;> rfl
  · rcases hr with rfl | rfl | rfl <;> rfl

theorem mem_getECS_timeout (w : World) (r : HttpRequest)
    (hr : r ∈ (getECSCredentials w).1) : r.timeoutSeconds = 5 := by
  rw [mem_getECS_eq w r hr]
  rfl

theorem mem_tryIMDS_timeout (c : Config) (w : World) (r : HttpRequest)
    (hr : r ∈ (tryIMDS c w).1) : r.timeoutSeconds = 5 := by
  unfold tryIMDS at hr
  split at hr
  · exact mem_getIMDSv1_timeout w r hr
  · split at hr
    · exact mem_getIMDSv2_timeout w r hr
    · split at hr
      · rename_i rs cr heq
        exact mem_getIMDSv2_timeout w r (by rw [heq]; exact hr)
      · rename_i rs e heq
        simp only at hr
        rw [List.mem_append] at hr
        rcases hr with hr | hr
        · exact mem_getIMDSv2_timeout w r (by rw [heq]; exact hr)
        · exact mem_getIMDSv1_timeout w r hr

theorem mem_resolveAfterEnv_timeout (c : Config) (w : World) (r : HttpRequest)
    (hr : r ∈ (resolveAfterEnv c w).1) : r.timeoutSeconds = 5 := by
  by_cases hecs : c.useECSMetadata = true
  · rcases hE : getECSCredentials w with ⟨rs, res⟩
    have hrs : ∀ x ∈ rs, x.timeoutSeconds = 5 := fun x hx =>
      mem_getECS_timeout w x (by rw [hE]; exact hx)
    cases res with
    | ok cr =>
      rw [resolveAfterEnv_ecs_ok c w rs cr hecs hE] at hr
      exact hrs r hr
    | error e =>
      by_cases himds : c.useIMDS = true
      · rcases hT : tryIMDS c w with ⟨rs2, res2⟩
        have hrs2 : ∀ x ∈ rs2, x.timeoutSeconds = 5 := fun x hx =>
          mem_tryIMDS_timeout c w x (by rw [hT]; exact hx)
        cases res2 with
        | ok cr =>
          rw [resolveAfterEnv_ecsFail_imds_ok c w rs rs2 e cr hecs hE himds hT] at hr
          rw [List.mem_append] at hr
          rcases hr with hr | hr
          · exact hrs r hr
          · exact hrs2 r hr
        | error e2 =>
          rw [resolveAfterEnv_ecsFail_imds_error c w rs rs2 e e2 hecs hE himds hT] at hr
          rw [List.mem_append] at hr
          rcases hr with hr | hr
          · exact hrs r hr
          · exact hrs2 r hr
      · simp only [Bool.not_eq_true] at himds
        rw [resolveAfterEnv_ecsFail_noImds c w rs e hecs hE himds] at hr
        exact hrs r hr
  · simp only [Bool.not_eq_true] at hecs
    by_cases himds : c.useIMDS = true
    · rcases hT : tryIMDS c w with ⟨rs2, res2⟩
      have hrs2 : ∀ x ∈ rs2, x.timeoutSeconds = 5 := fun x hx =>
        mem_tryIMDS_timeout c w x (by rw [hT]; exact hx)
      cases res2 with
      | ok cr =>
        rw [resolveAfterEnv_noEcs_imds_ok c w rs2 cr hecs himds hT] at hr
        exact hrs2 r hr
      | error e2 =>
        rw [resolveAfterEnv_noEcs_imds_error c w rs2 e2 hecs himds hT] at hr
        exact hrs2 r hr
    · simp only [Bool.not_eq_true] at himds
      rw [resolveAfterEnv_noEcs_noImds c w hecs himds] at hr
      simp at hr

theorem C2_environment_strategy_witness :
    cfgAllOn.GetCredentials wEnvFull =
      ([], .ok { accessKeyID := "AKENV", secretAccessKey := "SKENV"
                 sessionToken := "STENV", expiration := 0 }) ∧
    cfgAllOn.GetCredentials wC2half = resolveAfterEnv cfgAllOn wC2half :=
  ⟨(C2_environment_strategy cfgAllOn wEnvFull).1 (by decide) (by decide),
   (C2_environment_strategy cfgAllOn wC2half).2 (Or.inr (by decide))⟩

/-- Claim C7: every outbound HTTP request in every strategy (IMDSv1, IMDSv2
token/role/credentials, and ECS) is issued under the same bounded 5-second
timeout, so no step of the resolution can block unboundedly. The wall-clock
consequence is represented by the timeout bound each request carries. -/
theorem C7_bounded_timeout (c : Config) (w : World) :
    ∀ r ∈ (c.GetCredentials w).1, r.timeoutSeconds = 5 := by
  intro r hr
  unfold Config.GetCredentials at hr
  split at hr
  · simp at hr
  · exact mem_resolveAfterEnv_timeout c w r hr

theorem C7_bounded_timeout_witness :
    ecsCredsReq "/c1" ∈ (cfgAllOn.GetCredentials wC1).1 ∧
    (ecsCredsReq "/c1").timeoutSeconds = 5 :=
  ⟨by decide, C7_bounded_timeout cfgAllOn wC1 (ecsCredsReq "/c1") (by decide)⟩

/-- A world where `AWS_CONTAINER_CREDENTIALS_RELATIVE_URI` is set and the ECS
endpoint would deliver valid credentials, but `AWS_ECS_METADATA_ENDPOINT` —
the variable `LoadConfig` actually consults — is unset. -/
def wC3 : World :=
  mkWorld [("AWS_CONTAINER_CREDENTIALS_RELATIVE_URI", "/c3")]
    [(ecsCredsReq "/c3", .response 200 "ecsbody3")]
    [("ecsbody3", { accessKeyID := "AK3", secretAccessKey := "SK3"
                    token := "T3", expiration := "e3" })]
    [("e3", 100)]

/-- Claim C3 counterexample: with `AWS_CONTAINER_CREDENTIALS_RELATIVE_URI` set
and the ECS endpoint answering perfectly, the ECS strategy is nonetheless
inapplicable (never attempted: no request to the ECS host in the trace) and
resolution exhausts, because `LoadConfig` gates the strategy on the distinct
variable `AWS_ECS_METADATA_ENDPOINT`. -/
theorem C3_counterexample :
    wC3.env "AWS_CONTAINER_CREDENTIALS_RELATIVE_URI" = "/c3" ∧
    (getECSCredentials wC3).2 =
      .ok { accessKeyID := "AK3", secretAccessKey := "SK3"
            sessionToken := "T3", expiration := 100 } ∧
    (LoadConfig wC3).useECSMetadata = false ∧
    (LoadConfig wC3).GetCredentials wC3 =
      ([imdsV2TokenReq], .error "unable to locate AWS credentials") ∧
    (∀ r ∈ ((LoadConfig wC3).GetCredentials wC3).1, r.url ≠ "http://169.254.170.2/c3") :=
  ⟨rfl, rfl, rfl, rfl, by decide⟩

/-- Claim C3 (amended): the ECS strategy is applicable iff the environment
variable `AWS_ECS_METADATA_ENDPOINT` is non-empty;
`AWS_CONTAINER_CREDENTIALS_RELATIVE_URI` only supplies the request path — when
it is empty the attempted strategy fails with an error (still non-fatal to the
resolution), and every ECS request targets the fixed host
`http://169.254.170.2` with the value of that variable appended verbatim. -/
theorem C3_ecs_gating (w : World) :
    ((LoadConfig w).useECSMetadata = true ↔ w.env "AWS_ECS_METADATA_ENDPOINT" ≠ "") ∧
    (w.env "AWS_CONTAINER_CREDENTIALS_RELATIVE_URI" = "" →
      getECSCredentials w = ([], .error "AWS_CONTAINER_CREDENTIALS_RELATIVE_URI not set")) ∧
    (∀ r ∈ (getECSCredentials w).1,
      r.url = "http://169.254.170.2" ++ w.env "AWS_CONTAINER_CREDENTIALS_RELATIVE_URI") := by
  refine ⟨?_, ?_, ?_⟩
  · rw [loadConfig_useECSMetadata]
    simp [bne_iff_ne]
  · intro h
    unfold getECSCredentials
    rw [if_pos h]
  · intro r hr
    rw [mem_getECS_eq w r hr]
    rfl

/-- A world where only `AWS_ECS_METADATA_ENDPOINT` is set (the relative URI is
absent), so the ECS strategy is attempted and fails. -/
def wC3b : World := mkWorld [("AWS_ECS_METADATA_ENDPOINT", "on")] [] [] []

theorem C3_ecs_gating_witness :
    (LoadConfig wC3b).useECSMetadata = true ∧
    getECSCredentials wC3b = ([], .error "AWS_CONTAINER_CREDENTIALS_RELATIVE_URI not set") ∧
    (ecsCredsReq "/c3").url = "http://169.254.170.2/c3" :=
  ⟨(C3_ecs_gating wC3b).1.mpr (by decide),
   (C3_ecs_gating wC3b).2.1 rfl,
   (C3_ecs_gating wC3).2.2 (ecsCredsReq "/c3") (by decide)⟩

/-- A world with `AWS_IMDS_VERSION` unset where the IMDSv2 token request is
rejected (403) while the full IMDSv1 flow would succeed. -/
def wC4 : World :=
  mkWorld []
    [(imdsV2TokenReq, .response 403 "denied"),
     (imdsV1RoleReq, .response 200 "role4"),
     (imdsV1CredsReq "role4", .response 200 "v1body4")]
    [("v1body4", { accessKeyID := "AK4", secretAccessKey := "SK4"
                   token := "T4", expiration := "e4" })]
    [("e4", 200)]

/-- Like `wC4` but with `AWS_IMDS_VERSION` set to a value that is neither
`"v1"` nor `"v2"`, which is the only way to reach the fallback branch. -/
def wC4d : World :=
  mkWorld [("AWS_IMDS_VERSION", "auto")]
    [(imdsV2TokenReq, .response 403 "denied"),
     (imdsV1RoleReq, .response 200 "role4"),
     (imdsV1CredsReq "role4", .response 200 "v1body4")]
    [("v1body4", { accessKeyID := "AK4", secretAccessKey := "SK4"
                   token := "T4", expiration := "e4" })]
    [("e4", 200)]

/-- A world where `AWS_IMDS_VERSION` is `"v1"`. -/
def wC4v1 : World := mkWorld [("AWS_IMDS_VERSION", "v1")] [] [] []

/-- Claim C4 counterexample: with `AWS_IMDS_VERSION` unset and IMDS enabled,
the secured (v2) token step fails with 403 while the legacy (v1) flow would
succeed, yet `GetCredentials` declares exhaustion without attempting v1 —
`LoadConfig` defaults the version to `"v2"`, which selects the no-fallback
branch, so the claimed v2-to-v1 fallback does not occur. -/
theorem C4_counterexample :
    wC4.env "AWS_IMDS_VERSION" = "" ∧
    (LoadConfig wC4).useIMDS = true ∧
    resultOk (getIMDSv2Credentials wC4).2 = false ∧
    (getIMDSv1Credentials wC4).2 =
      .ok { accessKeyID := "AK4", secretAccessKey := "SK4"
            sessionToken := "T4", expiration := 200 } ∧
    (LoadConfig wC4).GetCredentials wC4 =
      ([imdsV2TokenReq], .error "unable to locate AWS credentials") :=
  ⟨rfl, rfl, rfl, rfl, rfl⟩

/-- Claim C4 (amended): `LoadConfig` maps an unset/empty `AWS_IMDS_VERSION` to
`"v2"`, so with it unset only the secured flow is attempted and a failure of
any of its steps is final for IMDS (no legacy fallback); the v2-then-v1
fallback happens exactly when `AWS_IMDS_VERSION` is a non-empty value other
than `"v1"` and `"v2"`; with `"v1"` the secured flow is never attempted, and
with `"v2"` the legacy flow is never attempted. -/
theorem C4_imds_dispatch (w : World) :
    (w.env "AWS_IMDS_VERSION" = "" → tryIMDS (LoadConfig w) w = getIMDSv2Credentials w) ∧
    (w.env "AWS_IMDS_VERSION" = "v1" → tryIMDS (LoadConfig w) w = getIMDSv1Credentials w) ∧
    (w.env "AWS_IMDS_VERSION" = "v2" → tryIMDS (LoadConfig w) w = getIMDSv2Credentials w) ∧
    (w.env "AWS_IMDS_VERSION" ≠ "" → w.env "AWS_IMDS_VERSION" ≠ "v1" →
      w.env "AWS_IMDS_VERSION" ≠ "v2" →
      ((∀ rs cr, getIMDSv2Credentials w = (rs, .ok cr) →
         tryIMDS (LoadConfig w) w = (rs, .ok cr)) ∧
       (∀ rs e, getIMDSv2Credentials w = (rs, .error e) →
         tryIMDS (LoadConfig w) w =
           (rs ++ (getIMDSv1Credentials w).1, (getIMDSv1Credentials w).2)))) := by
  refine ⟨?_, ?_, ?_, ?_⟩
  · intro h
    unfold tryIMDS
    rw [loadConfig_imdsVersion, if_pos h, if_neg (by decide), if_pos rfl]
  · intro h
    unfold tryIMDS
    rw [loadConfig_imdsVersion, h, if_neg (by decide : ¬("v1" : String) = ""), if_pos rfl]
  · intro h
    unfold tryIMDS
    rw [loadConfig_imdsVersion, h, if_neg (by decide : ¬("v2" : String) = ""),
      if_neg (by decide : ¬("v2" : String) = "v1"), if_pos rfl]
  · intro h1 h2 h3
    constructor
    · intro rs cr hE
      unfold tryIMDS
      rw [loadConfig_imdsVersion, if_neg h1, if_neg h2, if_neg h3, hE]
    · intro rs e hE
      unfold tryIMDS
      rw [loadConfig_imdsVersion, if_neg h1, if_neg h2, if_neg h3, hE]

theorem C4_imds_dispatch_witness :
    tryIMDS (LoadConfig wC4) wC4 = getIMDSv2Credentials wC4 ∧
    tryIMDS (LoadConfig wC4v1) wC4v1 = getIMDSv1Credentials wC4v1 ∧
    tryIMDS (LoadConfig wC4d) wC4d =
      ([imdsV2TokenReq] ++ (getIMDSv1Credentials wC4d).1, (getIMDSv1Credentials wC4d).2) :=
  ⟨(C4_imds_dispatch wC4).1 rfl,
   (C4_imds_dispatch wC4v1).2.1 rfl,
   ((C4_imds_dispatch wC4d).2.2.2 (by decide) (by decide) (by decide)).2
     [imdsV2TokenReq] "failed to get token from IMDSv2: status" rfl⟩

/-- Claim C10: after `LoadConfig` the `IMDSVersion` field is never the empty
string (it is `"v2"` whenever `AWS_IMDS_VERSION` is unset or empty), so the
branch of `GetCredentials` that tries the v2 flow and falls back to v1 — taken
exactly when the field is neither `"v1"` nor `"v2"` — is reachable only when
`AWS_IMDS_VERSION` is set to a non-empty value other than `"v1"` and `"v2"`. -/
theorem C10_imdsVersion_invariant (w : World) :
    (LoadConfig w).imdsVersion ≠ "" ∧
    (w.env "AWS_IMDS_VERSION" = "" → (LoadConfig w).imdsVersion = "v2") ∧
    (((LoadConfig w).imdsVersion ≠ "v1" ∧ (LoadConfig w).imdsVersion ≠ "v2") ↔
      (w.env "AWS_IMDS_VERSION" ≠ "" ∧ w.env "AWS_IMDS_VERSION" ≠ "v1" ∧
       w.env "AWS_IMDS_VERSION" ≠ "v2")) ∧
    (w.env "AWS_IMDS_VERSION" = "" → tryIMDS (LoadConfig w) w = getIMDSv2Credentials w) := by
  by_cases h : w.env "AWS_IMDS_VERSION" = ""
  · refine ⟨?_, fun _ => ?_, ?_, fun _ => ?_⟩
    · rw [loadConfig_imdsVersion, if_pos h]; decide
    · rw [loadConfig_imdsVersion, if_pos h]
    · rw [loadConfig_imdsVersion, if_pos h]
      constructor
      · rintro ⟨-, h2⟩; exact absurd rfl h2
      · rintro ⟨h1, -⟩; exact absurd h h1
    · unfold tryIMDS
      rw [loadConfig_imdsVersion, if_pos h, if_neg (by decide), if_pos rfl]
  · refine ⟨?_, fun he => absurd he h, ?_, fun he => absurd he h⟩
    · rw [loadConfig_imdsVersion, if_neg h]; exact h
    · rw [loadConfig_imdsVersion, if_neg h]
      constructor
      · rintro ⟨h1, h2⟩; exact ⟨h, h1, h2⟩
      · rintro ⟨-, h1, h2⟩; exact ⟨h1, h2⟩

theorem C10_imdsVersion_invariant_witness :
    (LoadConfig wC4).imdsVersion = "v2" ∧
    tryIMDS (LoadConfig wC4) wC4 = getIMDSv2Credentials wC4 ∧
    ((LoadConfig wC4d).imdsVersion ≠ "v1" ∧ (LoadConfig wC4d).imdsVersion ≠ "v2") :=
  ⟨(C10_imdsVersion_invariant wC4).2.1 rfl,
   (C10_imdsVersion_invariant wC4).2.2.2 rfl,
   (C10_imdsVersion_invariant wC4d).2.2.1.mpr (by decide)⟩

/-! Success-path evaluation lemmas for the three metadata strategies. -/

theorem getECS_success (w : World) (body : String) (cr : CredResponse)
    (hne : w.env "AWS_CONTAINER_CREDENTIALS_RELATIVE_URI" ≠ "")
    (hresp : w.http (ecsCredsReq (w.env "AWS_CONTAINER_CREDENTIALS_RELATIVE_URI")) =
      .response 200 body)
    (hdec : w.decodeCredJSON body = some cr) :
    getECSCredentials w =
      ([ecsCredsReq (w.env "AWS_CONTAINER_CREDENTIALS_RELATIVE_URI")],
       .ok (credentialsFromResponse w cr)) := by
  unfold getECSCredentials
  rw [if_neg hne, hresp]
  simp only []
  rw [if_neg (by decide : ¬(200 : Nat) ≠ 200), hdec]

theorem getIMDSv1_success (w : World) (roleName body : String) (cr : CredResponse)
    (h1 : w.http imdsV1RoleReq = .response 200 roleName)
    (h2 : w.http (imdsV1CredsReq roleName) = .response 200 body)
    (hdec : w.decodeCredJSON body = some cr) :
    getIMDSv1Credentials w =
      ([imdsV1RoleReq, imdsV1CredsReq roleName], .ok (credentialsFromResponse w cr)) := by
  unfold getIMDSv1Credentials
  rw [h1]
  simp only []
  rw [if_neg (by decide : ¬(200 : Nat) ≠ 200), h2]
  simp only []
  rw [if_neg (by decide : ¬(200 : Nat) ≠ 200), hdec]

theorem getIMDSv2_success (w : World) (token roleName body : String) (cr : CredResponse)
    (h1 : w.http imdsV2TokenReq = .response 200 token)
    (h2 : w.http (imdsV2RoleReq token) = .response 200 roleName)
    (h3 : w.http (imdsV2CredsReq token roleName) = .response 200 body)
    (hdec : w.decodeCredJSON body = some cr) :
    getIMDSv2Credentials w =
      ([imdsV2TokenReq, imdsV2RoleReq token, imdsV2CredsReq token roleName],
       .ok (credentialsFromResponse w cr)) := by
  unfold getIMDSv2Credentials
  rw [h1]
  simp only []
  rw [if_neg (by decide : ¬(200 : Nat) ≠ 200), h2]
  simp only []
  rw [if_neg (by decide : ¬(200 : Nat) ≠ 200), h3]
  simp only []
  rw [if_neg (by decide : ¬(200 : Nat) ≠ 200), hdec]

theorem credentialsFromResponse_expiration_parsed (w : World) (cr : CredResponse) (t : Int)
    (h : w.parseRFC3339 cr.expiration = some t) :
    (credentialsFromResponse w cr).expiration = t := by
  simp [credentialsFromResponse, h]

theorem credentialsFromResponse_expiration_fallback (w : World) (cr : CredResponse)
    (h : w.parseRFC3339 cr.expiration = none) :
    (credentialsFromResponse w cr).expiration = w.now + 3600 := by
  simp [credentialsFromResponse, h]

/-- Claim C5: in every metadata-based strategy (IMDSv1, IMDSv2, ECS), if the
credentials JSON decodes successfully but its `Expiration` field does not
parse as RFC 3339 (missing, empty, or malformed), the strategy still succeeds
and the returned credentials carry an expiration of now plus one hour (hence
between now and now + 1 hour inclusive), never an error; when the field does
parse, the returned expiration equals the decoded timestamp exactly. -/
theorem C5_expiration_fallback (w : World) (cr : CredResponse) :
    (∀ t, w.parseRFC3339 cr.expiration = some t →
      (credentialsFromResponse w cr).expiration = t) ∧
    (w.parseRFC3339 cr.expiration = none →
      (credentialsFromResponse w cr).expiration = w.now + 3600 ∧
      w.now ≤ (credentialsFromResponse w cr).expiration ∧
      (credentialsFromResponse w cr).expiration ≤ w.now + 3600) ∧
    (∀ body, w.env "AWS_CONTAINER_CREDENTIALS_RELATIVE_URI" ≠ "" →
      w.http (ecsCredsReq (w.env "AWS_CONTAINER_CREDENTIALS_RELATIVE_URI")) =
        .response 200 body →
      w.decodeCredJSON body = some cr →
      getECSCredentials w =
        ([ecsCredsReq (w.env "AWS_CONTAINER_CREDENTIALS_RELATIVE_URI")],
         .ok (credentialsFromResponse w cr))) ∧
    (∀ roleName body, w.http imdsV1RoleReq = .response 200 roleName →
      w.http (imdsV1CredsReq roleName) = .response 200 body →
      w.decodeCredJSON body = some cr →
      getIMDSv1Credentials w =
        ([imdsV1RoleReq, imdsV1CredsReq roleName], .ok (credentialsFromResponse w cr))) ∧
    (∀ token roleName body, w.http imdsV2TokenReq = .response 200 token →
      w.http (imdsV2RoleReq token) = .response 200 roleName →
      w.http (imdsV2CredsReq token roleName) = .response 200 body →
      w.decodeCredJSON body = some cr →
      getIMDSv2Credentials w =
        ([imdsV2TokenReq, imdsV2RoleReq token, imdsV2CredsReq token roleName],
         .ok (credentialsFromResponse w cr))) := by
  refine ⟨?_, ?_, ?_, ?_, ?_⟩
  · exact fun t h => credentialsFromResponse_expiration_parsed w cr t h
  · intro h
    rw [credentialsFromResponse_expiration_fallback w cr h]
    omega
  · exact fun body hne hresp hdec => getECS_success w body cr hne hresp hdec
  · exact fun roleName body h1 h2 hdec => getIMDSv1_success w roleName body cr h1 h2 hdec
  · exact fun token roleName body h1 h2 h3 hdec =>
      getIMDSv2_success w token roleName body cr h1 h2 h3 hdec

/-- The decoded credential response used by the C5 witness, whose expiration
string is not a parsable timestamp. -/
def crC5 : CredResponse :=
  { accessKeyID := "AK5", secretAccessKey := "SK5", token := "T5", expiration := "notadate" }

/-- A world where the ECS endpoint answers 200 with a body decoding to
`crC5`, whose expiration does not parse. -/
def wC5 : World :=
  mkWorld [("AWS_CONTAINER_CREDENTIALS_RELATIVE_URI", "/c5")]
    [(ecsCredsReq "/c5", .response 200 "body5")]
    [("body5", crC5)]
    []

theorem C5_expiration_fallback_witness :
    (credentialsFromResponse wC5 crC5).expiration = wC5.now + 3600 ∧
    getECSCredentials wC5 = ([ecsCredsReq "/c5"], .ok (credentialsFromResponse wC5 crC5)) ∧
    (credentialsFromResponse wC3
      { accessKeyID := "AK3", secretAccessKey := "SK3"
        token := "T3", expiration := "e3" }).expiration = 100 :=
  ⟨((C5_expiration_fallback wC5 crC5).2.1 rfl).1,
   (C5_expiration_fallback wC5 crC5).2.2.1 "body5" (by decide) rfl rfl,
   (C5_expiration_fallback wC3
     { accessKeyID := "AK3", secretAccessKey := "SK3"
       token := "T3", expiration := "e3" }).1 100 rfl⟩

/-- A world whose ECS endpoint answers with status 204 — a 2xx success — and
a perfectly decodable body. -/
def wC8 : World :=
  mkWorld [("AWS_CONTAINER_CREDENTIALS_RELATIVE_URI", "/c8")]
    [(ecsCredsReq "/c8", .response 204 "okbody")]
    [("okbody", { accessKeyID := "AK8", secretAccessKey := "SK8"
                  token := "T8", expiration := "e8" })]
    [("e8", 300)]

/-- Claim C8 counterexample: a 204 response — a 2xx status — with a decodable
body still fails the ECS step, because every status check in the source is
`StatusCode != 200`, not "non-2xx". -/
theorem C8_counterexample :
    wC8.http (ecsCredsReq "/c8") = .response 204 "okbody" ∧
    (200 ≤ 204 ∧ 204 < 300) ∧
    wC8.decodeCredJSON "okbody" =
      some { accessKeyID := "AK8", secretAccessKey := "SK8"
             token := "T8", expiration := "e8" } ∧
    (getECSCredentials wC8).2 = .error "failed to get credentials from ECS metadata: status" :=
  ⟨rfl, by decide, rfl, rfl⟩

/-- Claim C8 (amended): for every HTTP step of every strategy — the IMDSv1
role and credentials steps, the IMDSv2 token, role and credentials steps, and
the single ECS step — the step fails exactly when the response status is not
200 or a transport error occurs: only a 200 response is accepted as step
success (other 2xx statuses such as 204 are rejected; with 200 at every step
and a decodable body the strategy succeeds), and any such failure fails that
strategy without aborting the overall resolution. -/
theorem C8_status_exactness (w : World) :
    (w.http imdsV1RoleReq = .transportError →
      (getIMDSv1Credentials w).2 = .error "failed to get IAM role from IMDS") ∧
    (∀ st b, w.http imdsV1RoleReq = .response st b → st ≠ 200 →
      (getIMDSv1Credentials w).2 = .error "failed to get IAM role from IMDS: status") ∧
    (∀ roleName, w.http imdsV1RoleReq = .response 200 roleName →
      w.http (imdsV1CredsReq roleName) = .transportError →
      (getIMDSv1Credentials w).2 = .error "failed to get credentials from IMDS") ∧
    (∀ roleName st b, w.http imdsV1RoleReq = .response 200 roleName →
      w.http (imdsV1CredsReq roleName) = .response st b → st ≠ 200 →
      (getIMDSv1Credentials w).2 = .error "failed to get credentials from IMDS: status") ∧
    (w.http imdsV2TokenReq = .transportError →
      (getIMDSv2Credentials w).2 = .error "failed to get token from IMDSv2") ∧
    (∀ st b, w.http imdsV2TokenReq = .response st b → st ≠ 200 →
      (getIMDSv2Credentials w).2 = .error "failed to get token from IMDSv2: status") ∧
    (∀ token, w.http imdsV2TokenReq = .response 200 token →
      w.http (imdsV2RoleReq token) = .transportError →
      (getIMDSv2Credentials w).2 = .error "failed to get IAM role from IMDSv2") ∧
    (∀ token st b, w.http imdsV2TokenReq = .response 200 token →
      w.http (imdsV2RoleReq token) = .response st b → st ≠ 200 →
      (getIMDSv2Credentials w).2 = .error "failed to get IAM role from IMDSv2: status") ∧
    (∀ token roleName, w.http imdsV2TokenReq = .response 200 token →
      w.http (imdsV2RoleReq token) = .response 200 roleName →
      w.http (imdsV2CredsReq token roleName) = .transportError →
      (getIMDSv2Credentials w).2 = .error "failed to get credentials from IMDSv2") ∧
    (∀ token roleName st b, w.http imdsV2TokenReq = .response 200 token →
      w.http (imdsV2RoleReq token) = .response 200 roleName →
      w.http (imdsV2CredsReq token roleName) = .response st b → st ≠ 200 →
      (getIMDSv2Credentials w).2 = .error "failed to get credentials from IMDSv2: status") ∧
    (w.env "AWS_CONTAINER_CREDENTIALS_RELATIVE_URI" ≠ "" →
      w.http (ecsCredsReq (w.env "AWS_CONTAINER_CREDENTIALS_RELATIVE_URI")) =
        .transportError →
      (getECSCredentials w).2 = .error "failed to get credentials from ECS metadata") ∧
    (∀ st b, w.env "AWS_CONTAINER_CREDENTIALS_RELATIVE_URI" ≠ "" →
      w.http (ecsCredsReq (w.env "AWS_CONTAINER_CREDENTIALS_RELATIVE_URI")) =
        .response st b →
      st ≠ 200 →
      (getECSCredentials w).2 = .error "failed to get credentials from ECS metadata: status") ∧
    (∀ b, w.env "AWS_CONTAINER_CREDENTIALS_RELATIVE_URI" ≠ "" →
      w.http (ecsCredsReq (w.env "AWS_CONTAINER_CREDENTIALS_RELATIVE_URI")) =
        .response 200 b →
      w.decodeCredJSON b = none →
      (getECSCredentials w).2 = .error "failed to decode credentials from ECS metadata") ∧
    (∀ roleName body cr, w.http imdsV1RoleReq = .response 200 roleName →
      w.http (imdsV1CredsReq roleName) = .response 200 body →
      w.decodeCredJSON body = some cr →
      (getIMDSv1Credentials w).2 = .ok (credentialsFromResponse w cr)) ∧
    (∀ token roleName body cr, w.http imdsV2TokenReq = .response 200 token →
      w.http (imdsV2RoleReq token) = .response 200 roleName →
      w.http (imdsV2CredsReq token roleName) = .response 200 body →
      w.decodeCredJSON body = some cr →
      (getIMDSv2Credentials w).2 = .ok (credentialsFromResponse w cr)) ∧
    (∀ body cr, w.env "AWS_CONTAINER_CREDENTIALS_RELATIVE_URI" ≠ "" →
      w.http (ecsCredsReq (w.env "AWS_CONTAINER_CREDENTIALS_RELATIVE_URI")) =
        .response 200 body →
      w.decodeCredJSON body = some cr →
      (getECSCredentials w).2 = .ok (credentialsFromResponse w cr)) := by
  refine ⟨?_, ?_, ?_, ?_, ?_, ?_, ?_, ?_, ?_, ?_, ?_, ?_, ?_, ?_, ?_, ?_⟩
  · intro h
    unfold getIMDSv1Credentials
    rw [h]
  · intro st b h hst
    unfold getIMDSv1Credentials
    rw [h]
    simp only []
    rw [if_pos hst]
  · intro roleName h1 h2
    unfold getIMDSv1Credentials
    rw [h1]
    simp only []
    rw [if_neg (by decide : ¬(200 : Nat) ≠ 200), h2]
  · intro roleName st b h1 h2 hst
    unfold getIMDSv1Credentials
    rw [h1]
    simp only []
    rw [if_neg (by decide : ¬(200 : Nat) ≠ 200), h2]
    simp only []
    rw [if_pos hst]
  · intro h
    unfold getIMDSv2Credentials
    rw [h]
  · intro st b h hst
    unfold getIMDSv2Credentials
    rw [h]
    simp only []
    rw [if_pos hst]
  · intro token h1 h2
    unfold getIMDSv2Credentials
    rw [h1]
    simp only []
    rw [if_neg (by decide : ¬(200 : Nat) ≠ 200), h2]
  · intro token st b h1 h2 hst
    unfold getIMDSv2Credentials
    rw [h1]
    simp only []
    rw [if_neg (by decide : ¬(200 : Nat) ≠ 200), h2]
    simp only []
    rw [if_pos hst]
  · intro token roleName h1 h2 h3
    unfold getIMDSv2Credentials
    rw [h1]
    simp only []
    rw [if_neg (by decide : ¬(200 : Nat) ≠ 200), h2]
    simp only []
    rw [if_neg (by decide : ¬(200 : Nat) ≠ 200), h3]
  · intro token roleName st b h1 h2 h3 hst
    unfold getIMDSv2Credentials
    rw [h1]
    simp only []
    rw [if_neg (by decide : ¬(200 : Nat) ≠ 200), h2]
    simp only []
    rw [if_neg (by decide : ¬(200 : Nat) ≠ 200), h3]
    simp only []
    rw [if_pos hst]
  · intro hne h
    unfold getECSCredentials
    rw [if_neg hne, h]
  · intro st b hne h hst
    unfold getECSCredentials
    rw [if_neg hne, h]
    simp only []
    rw [if_pos hst]
  · intro b hne h hdec
    unfold getECSCredentials
    rw [if_neg hne, h]
    simp only []
    rw [if_neg (by decide : ¬(200 : Nat) ≠ 200), hdec]
  · intro roleName body cr h1 h2 hdec
    rw [getIMDSv1_success w roleName body cr h1 h2 hdec]
  · intro token roleName body cr h1 h2 h3 hdec
    rw [getIMDSv2_success w token roleName body cr h1 h2 h3 hdec]
  · intro body cr hne hresp hdec
    rw [getECS_success w body cr hne hresp hdec]

/-- A world whose ECS endpoint hangs (transport failure after the 5-second
bound) and whose IMDSv1 credentials step answers 500 after a 200 role step. -/
def wC8b : World :=
  mkWorld [("AWS_CONTAINER_CREDENTIALS_RELATIVE_URI", "/c8b")]
    [(imdsV1RoleReq, .response 200 "role8"),
     (imdsV1CredsReq "role8", .response 500 "oops")]
    [] []

theorem C8_status_exactness_witness :
    (getECSCredentials wC8).2 = .error "failed to get credentials from ECS metadata: status" ∧
    (getIMDSv2Credentials wC4).2 = .error "failed to get token from IMDSv2: status" ∧
    (getECSCredentials wC8b).2 = .error "failed to get credentials from ECS metadata" ∧
    (getIMDSv1Credentials wC8b).2 = .error "failed to get credentials from IMDS: status" ∧
    (getIMDSv1Credentials wC4).2 =
      .ok (credentialsFromResponse wC4
        { accessKeyID := "AK4", secretAccessKey := "SK4", token := "T4", expiration := "e4" }) :=
  ⟨(C8_status_exactness wC8).2.2.2.2.2.2.2.2.2.2.2.1 204 "okbody" (by decide) rfl (by decide),
   (C8_status_exactness wC4).2.2.2.2.2.1 403 "denied" rfl (by decide),
   (C8_status_exactness wC8b).2.2.2.2.2.2.2.2.2.2.1 (by decide) rfl,
   (C8_status_exactness wC8b).2.2.2.1 "role8" 500 "oops" rfl rfl (by decide),
   (C8_status_exactness wC4).2.2.2.2.2.2.2.2.2.2.2.2.2.1 "role4" "v1body4"
     { accessKeyID := "AK4", secretAccessKey := "SK4", token := "T4", expiration := "e4" }
     rfl rfl rfl⟩

/-- Claim C9: no metadata-based strategy (IMDSv1, IMDSv2 or ECS) validates
the decoded credential fields: for every 200 response whose body decodes —
including to all-empty strings, as the body consisting of an empty JSON
object yields — the strategy succeeds with exactly the decoded values, and
`GetCredentials` returns them immediately without trying any later
strategy. -/
theorem C9_no_validation (c : Config) (w : World) :
    (∀ roleName body cr, w.http imdsV1RoleReq = .response 200 roleName →
      w.http (imdsV1CredsReq roleName) = .response 200 body →
      w.decodeCredJSON body = some cr →
      (getIMDSv1Credentials w).2 = .ok (credentialsFromResponse w cr)) ∧
    (∀ token roleName body cr, w.http imdsV2TokenReq = .response 200 token →
      w.http (imdsV2RoleReq token) = .response 200 roleName →
      w.http (imdsV2CredsReq token roleName) = .response 200 body →
      w.decodeCredJSON body = some cr →
      (getIMDSv2Credentials w).2 = .ok (credentialsFromResponse w cr)) ∧
    (∀ body cr, w.env "AWS_CONTAINER_CREDENTIALS_RELATIVE_URI" ≠ "" →
      w.http (ecsCredsReq (w.env "AWS_CONTAINER_CREDENTIALS_RELATIVE_URI")) =
        .response 200 body →
      w.decodeCredJSON body = some cr →
      (getECSCredentials w).2 = .ok (credentialsFromResponse w cr)) ∧
    (∀ body cr, w.env "AWS_ACCESS_KEY_ID" = "" → c.useECSMetadata = true →
      w.env "AWS_CONTAINER_CREDENTIALS_RELATIVE_URI" ≠ "" →
      w.http (ecsCredsReq (w.env "AWS_CONTAINER_CREDENTIALS_RELATIVE_URI")) =
        .response 200 body →
      w.decodeCredJSON body = some cr →
      c.GetCredentials w =
        ([ecsCredsReq (w.env "AWS_CONTAINER_CREDENTIALS_RELATIVE_URI")],
         .ok (credentialsFromResponse w cr))) := by
  refine ⟨?_, ?_, ?_, ?_⟩
  · intro roleName body cr h1 h2 hdec
    rw [getIMDSv1_success w roleName body cr h1 h2 hdec]
  · intro token roleName body cr h1 h2 h3 hdec
    rw [getIMDSv2_success w token roleName body cr h1 h2 h3 hdec]
  · intro body cr hne hresp hdec
    rw [getECS_success w body cr hne hresp hdec]
  · intro body cr hak hecs hne hresp hdec
    rw [getCredentials_of_envAbsent c w (Or.inl hak)]
    exact resolveAfterEnv_ecs_ok c w _ _ hecs (getECS_success w body cr hne hresp hdec)

/-- A world where the ECS endpoint answers 200 with the empty JSON object,
which Go decodes into a `credResponse` of four empty strings. -/
def wC9 : World :=
  mkWorld [("AWS_CONTAINER_CREDENTIALS_RELATIVE_URI", "/c9")]
    [(ecsCredsReq "/c9", .response 200 "\x7b\x7d")]
    [("\x7b\x7d", { accessKeyID := "", secretAccessKey := "", token := "", expiration := "" })]
    []

theorem C9_no_validation_witness :
    cfgAllOn.GetCredentials wC9 =
      ([ecsCredsReq "/c9"],
       .ok { accessKeyID := "", secretAccessKey := "", sessionToken := "", expiration := 3600 }) ∧
    (getIMDSv1Credentials wC4).2 =
      .ok { accessKeyID := "AK4", secretAccessKey := "SK4"
            sessionToken := "T4", expiration := 200 } :=
  ⟨(C9_no_validation cfgAllOn wC9).2.2.2 "\x7b\x7d"
     { accessKeyID := "", secretAccessKey := "", token := "", expiration := "" }
     rfl rfl (by decide) rfl rfl,
   (C9_no_validation cfgAllOn wC4).1 "role4" "v1body4"
     { accessKeyID := "AK4", secretAccessKey := "SK4", token := "T4", expiration := "e4" }
     rfl rfl rfl⟩

/-! Outcome characterization used by the exhaustion claim. -/

theorem resolveAfterEnv_snd_cases (c : Config) (w : World) :
    (resolveAfterEnv c w).2 = .error "unable to locate AWS credentials" ∨
    ∃ cr, (resolveAfterEnv c w).2 = .ok cr := by
  by_cases hecs : c.useECSMetadata = true
  · rcases hE : getECSCredentials w with ⟨rs, res⟩
    cases res with
    | ok cr =>
      right
      exact ⟨cr, by rw [resolveAfterEnv_ecs_ok c w rs cr hecs hE]⟩
    | error e =>
      by_cases himds : c.useIMDS = true
      · rcases hT : tryIMDS c w with ⟨rs2, res2⟩
        cases res2 with
        | ok cr =>
          right
          exact ⟨cr, by rw [resolveAfterEnv_ecsFail_imds_ok c w rs rs2 e cr hecs hE himds hT]⟩
        | error e2 =>
          left
          rw [resolveAfterEnv_ecsFail_imds_error c w rs rs2 e e2 hecs hE himds hT]
      · simp only [Bool.not_eq_true] at himds
        left
        rw [resolveAfterEnv_ecsFail_noImds c w rs e hecs hE himds]
  · simp only [Bool.not_eq_true] at hecs
    by_cases himds : c.useIMDS = true
    · rcases hT : tryIMDS c w with ⟨rs2, res2⟩
      cases res2 with
      | ok cr =>
        right
        exact ⟨cr, by rw [resolveAfterEnv_noEcs_imds_ok c w rs2 cr hecs himds hT]⟩
      | error e2 =>
        left
        rw [resolveAfterEnv_noEcs_imds_error c w rs2 e2 hecs himds hT]
    · simp only [Bool.not_eq_true] at himds
      left
      rw [resolveAfterEnv_noEcs_noImds c w hecs himds]

theorem resolveAfterEnv_error_msg (c : Config) (w : World) (e : String)
    (h : (resolveAfterEnv c w).2 = .error e) : e = "unable to locate AWS credentials" := by
  rcases resolveAfterEnv_snd_cases c w with hh | ⟨cr, hh⟩
  · rw [hh] at h
    exact (Except.error.inj h).symm
  · rw [hh] at h
    simp at h

theorem getCredentials_error_msg (c : Config) (w : World) (e : String)
    (h : (c.GetCredentials w).2 = .error e) : e = "unable to locate AWS credentials" := by
  by_cases h1 : w.env "AWS_ACCESS_KEY_ID" ≠ ""
  · by_cases h2 : w.env "AWS_SECRET_ACCESS_KEY" ≠ ""
    · rw [getCredentials_of_envOk c w h1 h2] at h
      simp at h
    · push_neg at h2
      rw [getCredentials_of_envAbsent c w (Or.inr h2)] at h
      exact resolveAfterEnv_error_msg c w e h
  · push_neg at h1
    rw [getCredentials_of_envAbsent c w (Or.inl h1)] at h
    exact resolveAfterEnv_error_msg c w e h

theorem resultOk_resolveAfterEnv (c : Config) (w : World) :
    resultOk (resolveAfterEnv c w).2 =
      ((c.useECSMetadata && resultOk (getECSCredentials w).2) ||
       (c.useIMDS && resultOk (tryIMDS c w).2)) := by
  by_cases hecs : c.useECSMetadata = true
  · rcases hE : getECSCredentials w with ⟨rs, res⟩
    cases res with
    | ok cr =>
      rw [resolveAfterEnv_ecs_ok c w rs cr hecs hE]
      simp [resultOk, hecs, hE]
    | error e =>
      by_cases himds : c.useIMDS = true
      · rcases hT : tryIMDS c w with ⟨rs2, res2⟩
        cases res2 with
        | ok cr =>
          rw [resolveAfterEnv_ecsFail_imds_ok c w rs rs2 e cr hecs hE himds hT]
          simp [resultOk, hecs, himds, hE, hT]
        | error e2 =>
          rw [resolveAfterEnv_ecsFail_imds_error c w rs rs2 e e2 hecs hE himds hT]
          simp [resultOk, hecs, himds, hE, hT]
      · simp only [Bool.not_eq_true] at himds
        rw [resolveAfterEnv_ecsFail_noImds c w rs e hecs hE himds]
        simp [resultOk, hecs, himds, hE]
  · simp only [Bool.not_eq_true] at hecs
    by_cases himds : c.useIMDS = true
    · rcases hT : tryIMDS c w with ⟨rs2, res2⟩
      cases res2 with
      | ok cr =>
        rw [resolveAfterEnv_noEcs_imds_ok c w rs2 cr hecs himds hT]
        simp [resultOk, hecs, himds, hT]
      | error e2 =>
        rw [resolveAfterEnv_noEcs_imds_error c w rs2 e2 hecs himds hT]
        simp [resultOk, hecs, himds, hT]
    · simp only [Bool.not_eq_true] at himds
      rw [resolveAfterEnv_noEcs_noImds c w hecs himds]
      simp [resultOk, hecs, himds]

theorem resultOk_getCredentials (c : Config) (w : World) :
    resultOk (c.GetCredentials w).2 =
      ((w.env "AWS_ACCESS_KEY_ID" != "" && w.env "AWS_SECRET_ACCESS_KEY" != "") ||
       (c.useECSMetadata && resultOk (getECSCredentials w).2) ||
       (c.useIMDS && resultOk (tryIMDS c w).2)) := by
  by_cases h1 : w.env "AWS_ACCESS_KEY_ID" ≠ ""
  · by_cases h2 : w.env "AWS_SECRET_ACCESS_KEY" ≠ ""
    · rw [getCredentials_of_envOk c w h1 h2]
      have b1 : (w.env "AWS_ACCESS_KEY_ID" != "") = true := by simp [bne_iff_ne, h1]
      have b2 : (w.env "AWS_SECRET_ACCESS_KEY" != "") = true := by simp [bne_iff_ne, h2]
      rw [b1, b2]
      simp [resultOk]
    · push_neg at h2
      rw [getCredentials_of_envAbsent c w (Or.inr h2), h2]
      simp only [bne_self_eq_false, Bool.and_false, Bool.false_or]
      exact resultOk_resolveAfterEnv c w
  · push_neg at h1
    rw [getCredentials_of_envAbsent c w (Or.inl h1), h1]
    simp only [bne_self_eq_false, Bool.false_and, Bool.false_or]
    exact resultOk_resolveAfterEnv c w

/-- Claim C6: `GetCredentials` returns the single terminal "unable to locate
AWS credentials" error (whatever error it returns carries that message, it is
total, and it never returns partial credentials) exactly when the environment
strategy is absent and every enabled metadata strategy fails; `AWS_USE_IMDS`
disables IMDS only as the literal `"false"` (anything else, unset included,
enables it); and in the concrete scenario — IMDS disabled, ECS metadata not
configured, no environment credentials — resolution returns the exhaustion
error with no request issued. -/
theorem C6_exhaustion (c : Config) (w : World) :
    (∀ e, (c.GetCredentials w).2 = .error e → e = "unable to locate AWS credentials") ∧
    (resultOk (c.GetCredentials w).2 = false ↔
      ((w.env "AWS_ACCESS_KEY_ID" = "" ∨ w.env "AWS_SECRET_ACCESS_KEY" = "") ∧
       (c.useECSMetadata = false ∨ resultOk (getECSCredentials w).2 = false) ∧
       (c.useIMDS = false ∨ resultOk (tryIMDS c w).2 = false))) ∧
    (w.env "AWS_USE_IMDS" = "false" → (LoadConfig w).useIMDS = false) ∧
    (w.env "AWS_USE_IMDS" ≠ "false" → (LoadConfig w).useIMDS = true) ∧
    (w.env "AWS_USE_IMDS" = "false" → w.env "AWS_ECS_METADATA_ENDPOINT" = "" →
      w.env "AWS_ACCESS_KEY_ID" = "" →
      (LoadConfig w).GetCredentials w = ([], .error "unable to locate AWS credentials")) := by
  refine ⟨fun e h => getCredentials_error_msg c w e h, ?_, ?_, ?_, ?_⟩
  · rw [resultOk_getCredentials]
    simp only [Bool.or_eq_false_iff, Bool.and_eq_false_iff, bne_eq_false_iff_eq,
      Bool.not_eq_true]
    tauto
  · intro h
    rw [loadConfig_useIMDS, h]
    decide
  · intro h
    rw [loadConfig_useIMDS]
    simp [bne_iff_ne]
    exact h
  · intro h1 h2 h3
    rw [getCredentials_of_envAbsent (LoadConfig w) w (Or.inl h3)]
    have hecs : (LoadConfig w).useECSMetadata = false := by
      rw [loadConfig_useECSMetadata, h2]
      decide
    have himds : (LoadConfig w).useIMDS = false := by
      rw [loadConfig_useIMDS, h1]
      decide
    exact resolveAfterEnv_noEcs_noImds (LoadConfig w) w hecs himds

/-- A world where IMDS is disabled by the literal `"false"`, ECS is not
configured and no environment credentials exist. -/
def wC6 : World := mkWorld [("AWS_USE_IMDS", "false")] [] [] []

theorem C6_exhaustion_witness :
    (LoadConfig wC6).useIMDS = false ∧
    (LoadConfig wC6).GetCredentials wC6 = ([], .error "unable to locate AWS credentials") :=
  ⟨(C6_exhaustion (LoadConfig wC6) wC6).2.2.1 rfl,
   (C6_exhaustion (LoadConfig wC6) wC6).2.2.2.2 rfl rfl rfl⟩

end Dyn
